import Mathlib

/-
Verification of the Xtrix-UI notification lifecycle manager
(src/src/UI/Components/Notification.tsx): the notification record store,
the expiry scheduler's arming condition, the dispatcher operations, and
the presentation grouping logic, embedded shallowly in Lean.
-/

namespace Xtrix

/-- Shallow embedding of the TypeScript `NotificationOptions` interface.
Variant, type and position are runtime strings (TypeScript union types are
erased at runtime and the source performs no validation); `duration` is an
optional number of milliseconds, embedded as an integer. -/
structure NotificationOptions where
  duration : Option Int := none
  variant : Option String := none
  type : Option String := none
  position : Option String := none
deriving DecidableEq, Repr

/-- Shallow embedding of the TypeScript `Notification` interface. -/
structure Notification where
  id : String
  message : String
  options : Option NotificationOptions := none
deriving DecidableEq, Repr

/-- The id generated by `addNotification`: the template string
`notification_${Date.now()}` with the current millisecond timestamp. -/
def genId (now : Nat) : String :=
  "notification_" ++ toString now

/-- The store update performed by `addNotification`:
`setNotifications((prev) => [...prev, { id, message, options }])`.
The millisecond clock reading `Date.now()` is passed in explicitly. -/
def addNotification (prev : List Notification) (now : Nat) (message : String)
    (options : Option NotificationOptions) : List Notification :=
  prev ++ [{ id := genId now, message := message, options := options }]

/-- The expiry-arming condition of `addNotification`:
`if (options?.duration) setTimeout(...)`. JavaScript truthiness of an
optional number: `undefined` and `0` are falsy, every other number truthy. -/
def armsExpiry (options : Option NotificationOptions) : Bool :=
  match options with
  | some o =>
    match o.duration with
    | some d => d != 0
    | none => false
  | none => false

/-- The store update performed by `removeNotification`:
`setNotifications((prev) => prev.filter((notif) => notif.id !== id))`. -/
def removeNotification (id : String) (prev : List Notification) : List Notification :=
  prev.filter (fun notif => notif.id != id)

/-- A dispatcher event acting on the store: an `addNotification` call (with
the clock value observed at that call) or a removal (an explicit
`removeNotification` call, a dismiss click, or an expiry timer firing —
the timer callback is itself `removeNotification(id)`). -/
inductive Event where
  | add (now : Nat) (message : String) (options : Option NotificationOptions)
  | remove (id : String)
deriving DecidableEq, Repr

/-- One dispatcher event applied to the store. -/
def step (l : List Notification) : Event → List Notification
  | Event.add now msg opts => addNotification l now msg opts
  | Event.remove id => removeNotification id l

/-- The store after a sequence of dispatcher events, from a given state. -/
def runFrom (init : List Notification) (tr : List Event) : List Notification :=
  tr.foldl step init

/-- The store after a sequence of dispatcher events, from the empty store
(`React.useState<Notification[]>([])`). -/
def run (tr : List Event) : List Notification :=
  runFrom [] tr

/-- The variant stored in a record, as read by the container:
`n.options?.variant` (optional chaining). -/
def variantOf (n : Notification) : Option String :=
  n.options.bind NotificationOptions.variant

/-- The toast group of `NotificationContainer`:
`notifications.filter((n) => n.options?.variant === "toast")`. -/
def toasts (notifications : List Notification) : List Notification :=
  notifications.filter (fun n => variantOf n == some "toast")

/-- The rendered sooner group of `NotificationContainer`:
`notifications.filter((n) => n.options?.variant === "sooner").slice(0, 5)`. -/
def sooners (notifications : List Notification) : List Notification :=
  (notifications.filter (fun n => variantOf n == some "sooner")).take 5

/-- The `positionClasses` lookup object of `NotificationContainer`; an
unknown key yields `undefined`, embedded as `none`. -/
def positionClasses (p : String) : Option String :=
  if p = "top-right" then some "fixed top-5 right-5"
  else if p = "top-left" then some "fixed top-5 left-5"
  else if p = "bottom-right" then some "fixed bottom-5 right-5"
  else if p = "bottom-left" then some "fixed bottom-5 left-5"
  else if p = "center" then some "fixed top-5 left-1/2 -translate-x-1/2"
  else none

/-- The defaulting read `options?.position || "top-right"`: `undefined`
and the empty string are falsy and fall back, any other string is kept. -/
def positionOrDefault (o : Option NotificationOptions) : String :=
  match o.bind NotificationOptions.position with
  | some p => if p = "" then "top-right" else p
  | none => "top-right"

/-- The defaulting read `options?.type || "default"` in `NotificationItem`. -/
def typeOrDefault (o : Option NotificationOptions) : String :=
  match o.bind NotificationOptions.type with
  | some t => if t = "" then "default" else t
  | none => "default"

/-- The defaulting read `options?.variant || "toast"` in `NotificationItem`. -/
def variantOrDefault (o : Option NotificationOptions) : String :=
  match o.bind NotificationOptions.variant with
  | some v => if v = "" then "toast" else v
  | none => "toast"

/-- The `typeClasses` lookup object of `NotificationItem`. -/
def typeClasses (t : String) : Option String :=
  if t = "default" then some "bg-gray-200 text-black"
  else if t = "success" then some "bg-green-500 text-white"
  else if t = "error" then some "bg-red-500 text-white"
  else if t = "warning" then some "bg-yellow-500 text-black"
  else none

/-- The `variantClasses` lookup object of `NotificationItem`. -/
def variantClasses (v : String) : Option String :=
  if v = "toast" then some "shadow-lg"
  else if v = "sooner" then some "shadow-md"
  else if v = "banner" then some "w-full"
  else none

/-- The anchor class of an individually rendered toast:
`positionClasses[notification?.options?.position || "top-right"]`. -/
def toastAnchorClass (n : Notification) : Option String :=
  positionClasses (positionOrDefault n.options)

/-- The anchor class of the single sooner stack container:
`positionClasses[sooners[0]?.options?.position || "top-right"]`, where
`sooners` is the capped rendered group. -/
def soonerStackAnchorClass (notifications : List Notification) : Option String :=
  positionClasses
    (match (sooners notifications).head? with
     | some n => positionOrDefault n.options
     | none => "top-right")

/-- The anchor class of a rendered sooner item: every sooner item is
rendered inside the one stack container, so its anchor is the stack's
anchor, independent of the item's rank and of its own declared position. -/
def renderedSoonerAnchorClass (notifications : List Notification)
    (_index : Nat) : Option String :=
  soonerStackAnchorClass notifications

/-- The vertical offset factor of the sooner item at a given rank:
the class template `translate-y-${index * -2}`. -/
def soonerOffsetY (index : Nat) : Int :=
  (index : Int) * (-2)

/-- The width reduction in px of the sooner item at a given rank:
the class template `w-[calc(20rem-${index * 4}px)]`. -/
def soonerWidthReductionPx (index : Nat) : Nat :=
  index * 4

/-- Shallow embedding of the `useNotification` hook: reading the React
context gives `some` value inside an initialized provider scope and `none`
outside one; the hook throws (embedded as `Except.error`) exactly when the
context is absent. -/
def useNotification {α : Type} (context : Option α) : Except String α :=
  match context with
  | some c => Except.ok c
  | none => Except.error "useNotification must be used within a NotificationProvider"

/-- Options of the sooner-variant notifications used in concrete scenarios. -/
def soonerOpts : NotificationOptions :=
  { variant := some "sooner" }

/-- Options of the banner-variant notifications used in concrete scenarios. -/
def bannerOpts : NotificationOptions :=
  { variant := some "banner" }

/-- The store after seven sooner-variant notifications A..G are added in
order at distinct milliseconds 1..7, with no removals. -/
def c2Store : List Notification :=
  run [Event.add 1 "A" (some soonerOpts), Event.add 2 "B" (some soonerOpts),
       Event.add 3 "C" (some soonerOpts), Event.add 4 "D" (some soonerOpts),
       Event.add 5 "E" (some soonerOpts), Event.add 6 "F" (some soonerOpts),
       Event.add 7 "G" (some soonerOpts)]

end Xtrix

namespace Xtrix

/-- Claim C1 (code bug): two `addNotification` calls in the same
millisecond (clock value 0) both generate the id `notification_0`, so two
live notifications share an id — the pairwise-uniqueness invariant fails —
and after the two adds, one removal of that id empties the store: its size
is 0, not the 2 − 1 = 1 the size accounting of the claim demands. -/
theorem C1_code_bug :
    (run [Event.add 0 "A" none, Event.add 0 "B" none]).map Notification.id
      = ["notification_0", "notification_0"]
    ∧ ¬ ((run [Event.add 0 "A" none, Event.add 0 "B" none]).map Notification.id).Nodup
    ∧ removeNotification "notification_0"
        (run [Event.add 0 "A" none, Event.add 0 "B" none]) = [] := by
  refine ⟨by decide, by decide, by decide⟩

/-- Claim C2: with seven sooner notifications A..G added in order and no
removals, the rendered sooner group is exactly A,B,C,D,E (oldest-first cap
of 5) while F and G remain in the store; after removing A the rendered
group is exactly B,C,D,E,F; and in general the rendered sooner group has
at most 5 entries and is a subsequence of the store. -/
theorem C2_sooner_cap :
    (sooners c2Store).map Notification.message = ["A", "B", "C", "D", "E"]
    ∧ c2Store.map Notification.message = ["A", "B", "C", "D", "E", "F", "G"]
    ∧ (sooners (removeNotification (genId 1) c2Store)).map Notification.message
        = ["B", "C", "D", "E", "F"]
    ∧ (removeNotification (genId 1) c2Store).map Notification.message
        = ["B", "C", "D", "E", "F", "G"]
    ∧ (∀ l : List Notification,
        (sooners l).length ≤ 5 ∧ List.Sublist (sooners l) l) := by
  refine ⟨by decide, by decide, by decide, by decide, fun l => ⟨?_, ?_⟩⟩
  · simp [sooners, List.length_take]
  · exact (List.take_sublist 5 _).trans (List.filter_sublist _)

/-- Claim C3 (code bug): a banner-variant notification in the store is
rendered by `NotificationContainer` in neither the toast group nor the
sooner group — it is not rendered at all — although the store contains it
and `NotificationItem` even defines a banner class (`w-full`). -/
theorem C3_code_bug :
    toasts (run [Event.add 1 "B" (some bannerOpts)]) = []
    ∧ sooners (run [Event.add 1 "B" (some bannerOpts)]) = []
    ∧ (run [Event.add 1 "B" (some bannerOpts)]).map Notification.message = ["B"]
    ∧ variantClasses "banner" = some "w-full" := by
  refine ⟨by decide, by decide, by decide, by decide⟩

/-- Claim C4 counterexample: with `duration = -1` the source's truthiness
check `if (options?.duration)` arms the expiry timer although the duration
is not greater than 0, refuting the claimed "if and only if
`options.duration` is present and > 0". -/
theorem C4_counterexample :
    armsExpiry (some { duration := some (-1) }) = true
    ∧ (some ({ duration := some (-1) } : NotificationOptions)).bind
        NotificationOptions.duration = some (-1)
    ∧ ¬ ((-1 : Int) > 0) := by
  refine ⟨by decide, by decide, by decide⟩

/-- Claim C4 amended: `addNotification` arms a one-shot expiry removal for
the new id if and only if `options.duration` is present and nonzero
(JavaScript truthiness); when the duration is 0 or absent no timer is
armed, and any notification stays in the store across an arbitrary further
event sequence containing no removal of its id. -/
theorem C4_expiry_arming :
    (∀ opts : Option NotificationOptions,
      armsExpiry opts = true
        ↔ ∃ d, opts.bind NotificationOptions.duration = some d ∧ d ≠ 0)
    ∧ (∀ (init : List Notification) (tr : List Event) (n : Notification),
        n ∈ init → (∀ e ∈ tr, e ≠ Event.remove n.id) → n ∈ runFrom init tr) := by
  constructor
  · intro opts
    match opts with
    | none => simp [armsExpiry]
    | some o =>
      match h : o.duration with
      | none => simp [armsExpiry, h]
      | some d => simp [armsExpiry, h]
  · intro init tr
    induction tr generalizing init with
    | nil => intro n hn _; exact hn
    | cons e rest ih =>
      intro n hn he
      have hstep : n ∈ step init e := by
        match e with
        | Event.add now msg opts =>
          exact List.mem_append_left _ hn
        | Event.remove id =>
          have hne : id ≠ n.id := by
            intro hcontra
            exact (he (Event.remove id) (List.mem_cons_self _ _)) (by rw [hcontra])
          simp [step, removeNotification, List.mem_filter]
          exact ⟨hn, fun hcontra => hne hcontra.symm⟩
      have : runFrom init (e :: rest) = runFrom (step init e) rest := rfl
      rw [this]
      exact ih (step init e) n hstep (fun e' he' => he e' (List.mem_cons_of_mem _ he'))

/-- Claim C4 witness: a concrete notification survives a removal event for
a different id. -/
theorem C4_expiry_arming_witness :
    ((⟨"notification_5", "M", none⟩ : Notification)
        ∈ ([⟨"notification_5", "M", none⟩] : List Notification))
    ∧ (∀ e ∈ ([Event.remove "notification_7"] : List Event),
        e ≠ Event.remove (⟨"notification_5", "M", none⟩ : Notification).id)
    ∧ (⟨"notification_5", "M", none⟩ : Notification)
        ∈ runFrom [⟨"notification_5", "M", none⟩] [Event.remove "notification_7"] :=
  ⟨by decide, by decide, C4_expiry_arming.2 _ _ _ (by decide) (by decide)⟩

/-- Claim C5: removing an id that no record in the store carries leaves
the store unchanged — a safe no-op, so `removeNotification` is idempotent
and a late-firing expiry timer for an already-removed id is harmless. -/
theorem C5_remove_absent_noop (l : List Notification) (id : String)
    (h : ∀ n ∈ l, n.id ≠ id) : removeNotification id l = l := by
  unfold removeNotification
  refine List.filter_eq_self.mpr ?_
  intro n hn
  simpa using h n hn

/-- Claim C5 witness: removing an absent id from a concrete one-element
store is a no-op. -/
theorem C5_remove_absent_noop_witness :
    (∀ n ∈ ([⟨"notification_1", "A", none⟩] : List Notification),
      n.id ≠ "notification_9")
    ∧ removeNotification "notification_9" [⟨"notification_1", "A", none⟩]
        = [⟨"notification_1", "A", none⟩] :=
  ⟨by decide, C5_remove_absent_noop _ _ (by decide)⟩

/-- Claim C6 counterexample: a supplied unknown option value is not
replaced by the default at render time — the defaulting read keeps the
unknown string (it is truthy), and the class lookup then yields no class
(`undefined`), not the default's class: unknown position "middle" does not
yield the `top-right` rendering, and unknown type/variant values likewise
yield no class. -/
theorem C6_counterexample :
    positionOrDefault (some { position := some "middle" }) = "middle"
    ∧ positionClasses (positionOrDefault (some { position := some "middle" })) = none
    ∧ positionClasses "top-right" = some "fixed top-5 right-5"
    ∧ typeClasses (typeOrDefault (some { type := some "info" })) = none
    ∧ variantClasses (variantOrDefault (some { variant := some "popup" })) = none := by
  refine ⟨by decide, by decide, by decide, by decide, by decide⟩

/-- Claim C6 amended: at render time an omitted option value (or an empty
string, falsy in JavaScript) degrades to the documented default —
`top-right`, `default`, `toast` — and the call is never rejected for
invalid values (the defaulting reads are total functions); but a supplied
unknown non-empty value is kept, not replaced by the default, and the
subsequent class lookup yields no class rather than the default's class. -/
theorem C6_option_defaulting :
    positionOrDefault none = "top-right"
    ∧ typeOrDefault none = "default"
    ∧ variantOrDefault none = "toast"
    ∧ positionOrDefault (some {}) = "top-right"
    ∧ typeOrDefault (some {}) = "default"
    ∧ variantOrDefault (some {}) = "toast"
    ∧ positionOrDefault (some { position := some "" }) = "top-right"
    ∧ typeOrDefault (some { type := some "" }) = "default"
    ∧ variantOrDefault (some { variant := some "" }) = "toast"
    ∧ (∀ s : String, s ≠ "" →
        positionOrDefault (some { position := some s }) = s
        ∧ typeOrDefault (some { type := some s }) = s
        ∧ variantOrDefault (some { variant := some s }) = s) := by
  refine ⟨by decide, by decide, by decide, by decide, by decide, by decide,
    by decide, by decide, by decide, ?_⟩
  intro s hs
  refine ⟨?_, ?_, ?_⟩
  · simp [positionOrDefault, Option.bind, hs]
  · simp [typeOrDefault, Option.bind, hs]
  · simp [variantOrDefault, Option.bind, hs]

/-- Claim C6 witness: the pass-through branch of the amended claim at the
concrete unknown value "middle". -/
theorem C6_option_defaulting_witness :
    ("middle" : String) ≠ ""
    ∧ (positionOrDefault (some { position := some "middle" }) = "middle"
       ∧ typeOrDefault (some { type := some "middle" }) = "middle"
       ∧ variantOrDefault (some { variant := some "middle" }) = "middle") :=
  ⟨by decide, C6_option_defaulting.2.2.2.2.2.2.2.2.2 "middle" (by decide)⟩

/-- Claim C7: the store changes only by append or by id-filtering removal:
`addNotification` leaves the existing records and their order unchanged
and appends exactly one new record built from its arguments, and
`removeNotification` keeps every record with a different id, in the same
relative order, each record unchanged (no mutation of message or
options). -/
theorem C7_frame :
    (∀ (l : List Notification) (now : Nat) (msg : String)
        (opts : Option NotificationOptions),
      (addNotification l now msg opts).length = l.length + 1
      ∧ (addNotification l now msg opts).take l.length = l
      ∧ (addNotification l now msg opts).drop l.length
          = [{ id := genId now, message := msg, options := opts }])
    ∧ (∀ (l : List Notification) (id : String),
      List.Sublist (removeNotification id l) l
      ∧ (∀ n ∈ l, n.id ≠ id → n ∈ removeNotification id l)
      ∧ (∀ n ∈ removeNotification id l, n ∈ l ∧ n.id ≠ id)) := by
  constructor
  · intro l now msg opts
    refine ⟨by simp [addNotification], ?_, ?_⟩
    · simp [addNotification]
    · simp [addNotification]
  · intro l id
    refine ⟨List.filter_sublist _, ?_, ?_⟩
    · intro n hn hne
      simp [removeNotification, List.mem_filter]
      exact ⟨hn, hne⟩
    · intro n hn
      have := List.mem_filter.mp hn
      simpa using this

/-- Claim C7 witness: in a concrete two-element store, the record with the
other id survives a removal. -/
theorem C7_frame_witness :
    ((⟨"notification_1", "A", none⟩ : Notification)
        ∈ ([⟨"notification_1", "A", none⟩, ⟨"notification_2", "B", none⟩]
            : List Notification))
    ∧ (⟨"notification_1", "A", none⟩ : Notification).id ≠ "notification_2"
    ∧ (⟨"notification_1", "A", none⟩ : Notification)
        ∈ removeNotification "notification_2"
            [⟨"notification_1", "A", none⟩, ⟨"notification_2", "B", none⟩] :=
  ⟨by decide, by decide,
    (C7_frame.2 _ "notification_2").2.1 _ (by decide) (by decide)⟩

/-- A sooner notification declaring position bottom-left, first in the
concrete stack-anchoring scenario. -/
def c8A : Notification :=
  ⟨genId 1, "A", some { variant := some "sooner", position := some "bottom-left" }⟩

/-- A sooner notification declaring position top-right, second in the
concrete stack-anchoring scenario. -/
def c8B : Notification :=
  ⟨genId 2, "B", some { variant := some "sooner", position := some "top-right" }⟩

/-- Claim C8 counterexample: a rendered sooner notification is not
anchored according to its own declared position — the second rendered
sooner declares `top-right` but is anchored with the whole stack at the
first entry's `bottom-left`. -/
theorem C8_counterexample :
    c8B ∈ sooners [c8A, c8B]
    ∧ renderedSoonerAnchorClass [c8A, c8B] 1 = some "fixed bottom-5 left-5"
    ∧ positionClasses (positionOrDefault c8B.options) = some "fixed top-5 right-5"
    ∧ renderedSoonerAnchorClass [c8A, c8B] 1
        ≠ positionClasses (positionOrDefault c8B.options) := by
  refine ⟨by decide, by decide, by decide, by decide⟩

/-- Claim C8 amended: all rendered sooner notifications share one stack
anchored at the declared position of the first rendered sooner entry
(`top-right` when it declares none, and `top-right` when the group is
empty) — an item's own position is not consulted for its anchor and there
is no grouping by position; within the stack each item's visual offset is
a deterministic and rank-injective function of its rank in the capped
filtered subsequence: vertical translate factor −2·rank and width
reduction 4·rank px. -/
theorem C8_sooner_stack_anchor :
    (∀ (l : List Notification) (i j : Nat),
      renderedSoonerAnchorClass l i = renderedSoonerAnchorClass l j)
    ∧ (∀ (l : List Notification) (n : Notification),
      (sooners l).head? = some n →
        soonerStackAnchorClass l = positionClasses (positionOrDefault n.options))
    ∧ (∀ l : List Notification, sooners l = [] →
        soonerStackAnchorClass l = some "fixed top-5 right-5")
    ∧ (∀ i j : Nat, soonerOffsetY i = soonerOffsetY j → i = j)
    ∧ (∀ i j : Nat,
        soonerWidthReductionPx i = soonerWidthReductionPx j → i = j) := by
  refine ⟨?_, ?_, ?_, ?_, ?_⟩
  · intro l i j
    rfl
  · intro l n h
    simp [soonerStackAnchorClass, h]
  · intro l h
    simp [soonerStackAnchorClass, h, positionClasses]
  · intro i j h
    simp only [soonerOffsetY] at h
    omega
  · intro i j h
    simp only [soonerWidthReductionPx] at h
    omega

/-- Claim C8 witness: in the concrete two-sooner store, the stack anchor
is the class of the first entry's declared position. -/
theorem C8_sooner_stack_anchor_witness :
    (sooners [c8A, c8B]).head? = some c8A
    ∧ soonerStackAnchorClass [c8A, c8B]
        = positionClasses (positionOrDefault c8A.options) :=
  ⟨by decide, C8_sooner_stack_anchor.2.1 _ _ (by decide)⟩

/-- Claim C9: consuming the dispatcher outside an initialized provider
scope fails synchronously at call time with the scope-not-initialized
error, and inside a scope it returns the context value; the failure is
surfaced, never silently ignored. -/
theorem C9_useNotification_scope (α : Type) (c : α) :
    useNotification (none : Option α)
      = Except.error "useNotification must be used within a NotificationProvider"
    ∧ useNotification (some c) = Except.ok c :=
  ⟨rfl, rfl⟩

/-- Claim C10: a single `removeNotification(id)` call removes every record
whose id equals the given id — membership in the result is membership in
the input with a different id — and concretely, after two `addNotification`
calls in the same millisecond (duplicate ids), one removal deletes both
records at once. -/
theorem C10_remove_removes_all :
    (∀ (l : List Notification) (id : String) (n : Notification),
      n ∈ removeNotification id l ↔ n ∈ l ∧ n.id ≠ id)
    ∧ removeNotification "notification_0"
        (run [Event.add 0 "A" none, Event.add 0 "B" none]) = [] := by
  constructor
  · intro l id n
    simp [removeNotification, List.mem_filter]
  · decide

end Xtrix
